import Mathlib

/-!
Verification of the repair-service marketplace backend (FastAPI + SQLAlchemy
sources under src/) against its natural-language specification.

The Python sources are shallowly embedded:
  * the SMS one-time-code store (src/routers/auth.py, class SMSStorage together
    with the module-level dict dev_sms_storage) becomes an explicit state
    record with executable set/get/delete operations;
  * the route handlers send_sms_code / verify_sms_code (src/routers/auth.py)
    and create_order / get_orders / update_order (src/routers/orders.py)
    become pure functions over that state plus explicit database rows;
  * wall-clock time (Python time.time) is a Nat parameter in seconds;
  * reachability of the Redis primary tier is a Bool parameter: when the
    current operation touches Redis and the primary is down the client call
    raises, which the source catches by setting self.redis_client = None and
    falling through to the in-memory tier;
  * logging (logger.info / logger.warning / logger.error of f-strings) is
    modelled as a list of entries, each carrying the interpolated values as an
    explicit argument list;
  * monetary amounts are modelled as integers; their numeric representation is
    immaterial to every property considered here.

Spec-side definitions (the lifecycle graph and the per-edge authorization
matrix of spec section 4.1, which have no counterpart in the sources) are
clearly marked as such and are only used to compare the code against the spec.
-/

namespace RepairService

/-! ## Association lists

Python dictionaries (dev_sms_storage) and the Redis key space are modelled as
association lists; only lookup behaviour matters, so insertion replaces any
previous binding by deleting it first and consing the new one in front. -/

/-- Lookup in an association list (Python dict indexing / redis GET). -/
def alookup {α : Type} (l : List (String × α)) (k : String) : Option α :=
  (l.find? (fun e => e.1 == k)).map (fun e => e.2)

/-- Delete a key (Python del / redis DEL). -/
def adel {α : Type} (l : List (String × α)) (k : String) : List (String × α) :=
  l.filter (fun e => !(e.1 == k))

/-- Bind a key to a value, replacing any previous binding
(Python dict assignment / redis SETEX). -/
def aset {α : Type} (l : List (String × α)) (k : String) (v : α) :
    List (String × α) :=
  (k, v) :: adel l k

theorem alookup_aset {α : Type} (l : List (String × α)) (k : String) (v : α) :
    alookup (aset l k v) k = some v := by
  simp [alookup, aset, List.find?]

theorem alookup_adel {α : Type} (l : List (String × α)) (k : String) :
    alookup (adel l k) k = none := by
  induction l with
  | nil => rfl
  | cons e t ih =>
    by_cases h : e.1 = k
    · simpa [adel, h] using ih
    · have hb : (e.1 == k) = false := by simp [h]
      simp only [adel, List.filter, hb, Bool.not_false, alookup, List.find?, hb]
      exact ih

theorem alookup_filter_none {α : Type} (l : List (String × α)) (k : String)
    (p : String × α → Bool) (h : alookup l k = none) :
    alookup (l.filter p) k = none := by
  induction l with
  | nil => rfl
  | cons e t ih =>
    by_cases he : e.1 = k
    · exfalso
      simp [alookup, List.find?, he] at h
    · have hb : (e.1 == k) = false := by simp [he]
      have ht : alookup t k = none := by
        simpa [alookup, List.find?, hb] using h
      by_cases hp : p e = true
      · simpa [List.filter, hp, alookup, List.find?, hb] using ih ht
      · simp only [List.filter, Bool.not_eq_true] at hp
        simp only [List.filter, hp]
        exact ih ht

theorem alookup_filter_some {α : Type} (l : List (String × α)) (k : String)
    (v : α) (p : String × α → Bool) (h : alookup l k = some v)
    (hp : p (k, v) = true) :
    alookup (l.filter p) k = some v := by
  induction l with
  | nil => simp [alookup] at h
  | cons e t ih =>
    by_cases he : e.1 = k
    · have hv : e.2 = v := by
        have := h
        simp [alookup, List.find?, he] at this
        exact this
      have hek : e = (k, v) := by
        cases e
        simp_all
      subst hek
      simp [List.filter, hp, alookup, List.find?]
    · have hb : (e.1 == k) = false := by simp [he]
      have ht : alookup t k = some v := by
        simpa [alookup, List.find?, hb] using h
      by_cases hq : p e = true
      · simpa [List.filter, hq, alookup, List.find?, hb] using ih ht
      · simp only [List.filter, Bool.not_eq_true] at hq
        simp only [List.filter, hq]
        exact ih ht

/-! ## The SMS one-time-code store (src/routers/auth.py, class SMSStorage)

State of the two-tier store: `redisFlag` is `self.redis_client is not None`,
`redisStore` the contents of the Redis key space (value plus absolute expiry
second, mirroring SETEX), `devStore` the module-level dict dev_sms_storage
(each entry a dict with keys code and expires), `cleanupTime` the module-level
dev_storage_cleanup_time.  Every operation also takes `primaryUp : Bool`: when
the operation reaches for Redis while the primary is down, the client call
raises, the except-branch sets self.redis_client = None and the fallback tier
is used, exactly as in the source. -/

/-- One entry of dev_sms_storage: the dict stored per phone number. -/
structure SMSEntry where
  code : String
  expires : Nat
deriving DecidableEq, Repr

/-- One Redis value written by SETEX, with its absolute expiry second. -/
structure RedisEntry where
  value : String
  expires : Nat
deriving DecidableEq, Repr

/-- Process-wide state of SMSStorage plus the module-level fallback dict. -/
structure StorageState where
  redisFlag : Bool
  redisStore : List (String × RedisEntry)
  devStore : List (String × SMSEntry)
  cleanupTime : Nat
deriving DecidableEq, Repr

/-- redis SETEX key ttl value: bind the key with absolute expiry now + ttl. -/
def redisSetex (store : List (String × RedisEntry)) (key value : String)
    (ttl now : Nat) : List (String × RedisEntry) :=
  aset store key ⟨value, now + ttl⟩

/-- redis GET: a key past its TTL behaves as absent. -/
def redisGet (store : List (String × RedisEntry)) (key : String) (now : Nat) :
    Option String :=
  match alookup store key with
  | some e => if now < e.expires then some e.value else none
  | none => none

/-- SMSStorage._set_sms_code_fallback: dev_sms_storage[phone] receives the
code with expires = time.time() + ttl; the surrounding try never fails on a
dict assignment, so the result is True. -/
def set_sms_code_fallback (s : StorageState) (now : Nat)
    (phone code : String) (ttl : Nat) : Bool × StorageState :=
  (true, { s with devStore := aset s.devStore phone ⟨code, now + ttl⟩ })

/-- SMSStorage.set_sms_code (the route always calls it with the default
ttl = 300). -/
def set_sms_code (s : StorageState) (primaryUp : Bool) (now : Nat)
    (phone code : String) (ttl : Nat) : Bool × StorageState :=
  if s.redisFlag then
    if primaryUp then
      (true,
        { s with
            redisStore :=
              redisSetex s.redisStore ("sms_code:" ++ phone) code ttl now })
    else
      set_sms_code_fallback { s with redisFlag := false } now phone code ttl
  else
    set_sms_code_fallback s now phone code ttl

/-- SMSStorage._cleanup_expired_codes: drop every entry whose expiry second
has been reached (current_time >= expires). -/
def cleanup_expired_codes (store : List (String × SMSEntry)) (now : Nat) :
    List (String × SMSEntry) :=
  store.filter (fun e => now < e.2.expires)

/-- SMSStorage._get_sms_code_fallback: an opportunistic sweep runs when more
than 300 seconds passed since the last one; then the entry is returned while
time.time() < expires, an expired entry is deleted on read, an absent one
yields None. -/
def get_sms_code_fallback (s : StorageState) (now : Nat) (phone : String) :
    Option String × StorageState :=
  let s1 :=
    if s.cleanupTime + 300 < now then
      { s with devStore := cleanup_expired_codes s.devStore now,
               cleanupTime := now }
    else s
  match alookup s1.devStore phone with
  | some d =>
      if now < d.expires then (some d.code, s1)
      else (none, { s1 with devStore := adel s1.devStore phone })
  | none => (none, s1)

/-- SMSStorage.get_sms_code. -/
def get_sms_code (s : StorageState) (primaryUp : Bool) (now : Nat)
    (phone : String) : Option String × StorageState :=
  if s.redisFlag then
    if primaryUp then
      (redisGet s.redisStore ("sms_code:" ++ phone) now, s)
    else
      get_sms_code_fallback { s with redisFlag := false } now phone
  else
    get_sms_code_fallback s now phone

/-- SMSStorage._delete_sms_code_fallback. -/
def delete_sms_code_fallback (s : StorageState) (phone : String) :
    StorageState :=
  { s with devStore := adel s.devStore phone }

/-- SMSStorage.delete_sms_code. -/
def delete_sms_code (s : StorageState) (primaryUp : Bool) (phone : String) :
    StorageState :=
  if s.redisFlag then
    if primaryUp then
      { s with redisStore := adel s.redisStore ("sms_code:" ++ phone) }
    else
      delete_sms_code_fallback { s with redisFlag := false } phone
  else
    delete_sms_code_fallback s phone

/-! ## Auth route handlers (src/routers/auth.py, src/schemas.py, src/auth.py)

HTTPException is modelled as a status code plus its detail string; a log line
of the form logger.level of an f-string is modelled as the level, the template
text with the interpolation slots removed, and the interpolated values as an
explicit list. -/

/-- Decidable equality of handler outcomes. -/
instance exceptDecEq {ε α : Type} [DecidableEq ε] [DecidableEq α] :
    DecidableEq (Except ε α) := fun a b =>
  match a, b with
  | .ok x, .ok y =>
      if h : x = y then .isTrue (by rw [h]) else .isFalse (by simp [h])
  | .error x, .error y =>
      if h : x = y then .isTrue (by rw [h]) else .isFalse (by simp [h])
  | .ok _, .error _ => .isFalse (by simp)
  | .error _, .ok _ => .isFalse (by simp)

/-- HTTPException as raised by the handlers: status code and detail. -/
structure ApiError where
  status : Nat
  detail : String
deriving DecidableEq, Repr

/-- One log line: level, the fixed text of the f-string, and the interpolated
values in order. -/
structure LogEntry where
  level : String
  template : String
  args : List String
deriving DecidableEq, Repr

/-- A row of the users table, as read or written through the raw SQL in
verify_sms_code. -/
structure DBUser where
  id : Nat
  phone_number : String
  role : String
  is_active : Bool
deriving DecidableEq, Repr

/-- The role string the raw INSERT in verify_sms_code writes for a user
auto-created on first successful verification. -/
def newUserRole : String := "CLIENT"

/-- The 400 error detail for an absent or expired code. -/
def codeNotFoundErr : ApiError :=
  ⟨400, "Код не найден или истек. Запросите новый код."⟩

/-- The 400 error detail for a found but mismatched code. -/
def codeMismatchErr : ApiError :=
  ⟨400, "Неверный код подтверждения"⟩

/-- The 400 error detail for a blocked account. -/
def accountDisabledErr : ApiError :=
  ⟨400, "Аккаунт заблокирован"⟩

/-- The 500 error detail when the notifier reports failure. -/
def smsSendFailedErr : ApiError :=
  ⟨500, "Ошибка отправки SMS"⟩

/-- The 500 error detail when storing the code fails. -/
def codeStoreFailedErr : ApiError :=
  ⟨500, "Ошибка сохранения кода"⟩

/-- Python str slicing s[a:b] on the character list. -/
def pySlice (s : String) (a b : Nat) : String :=
  String.mk ((s.data.drop a).take (b - a))

/-- PhoneAuth.validate_phone (src/schemas.py): strip every non-digit
character, then accept an 11-digit number starting with 7 or a 10-digit
number starting with 9, reformatting either into the canonical
+7 XXX XXX-XX-XX shape; reject anything else.  (Python re matches Unicode
decimal digits; every input of interest is ASCII, where Char.isDigit
coincides.) -/
def validate_phone (v : String) : Except String String :=
  let cleaned := String.mk (v.data.filter Char.isDigit)
  if cleaned.data.length = 11 ∧ cleaned.data.headD ' ' = '7' then
    .ok ("+7 " ++ pySlice cleaned 1 4 ++ " " ++ pySlice cleaned 4 7 ++ "-"
      ++ pySlice cleaned 7 9 ++ "-" ++ pySlice cleaned 9 11)
  else if cleaned.data.length = 10 ∧ cleaned.data.headD ' ' = '9' then
    .ok ("+7 " ++ pySlice cleaned 0 3 ++ " " ++ pySlice cleaned 3 6 ++ "-"
      ++ pySlice cleaned 6 8 ++ "-" ++ pySlice cleaned 8 10)
  else
    .error "Неверный формат российского номера телефона"

/-- The success body of POST /send-sms: it echoes the phone number and,
marked in the source as for development only, the generated code itself. -/
structure SendSmsOk where
  message : String
  phone_number : String
  code : String
deriving DecidableEq, Repr

/-- Result of a route handler run: the HTTP outcome, the log lines written,
and the storage state afterwards. -/
structure SendSmsRun where
  result : Except ApiError SendSmsOk
  logs : List LogEntry
  state : StorageState
deriving DecidableEq, Repr

/-- Route handler send_sms_code (src/routers/auth.py): `phone` is the
already-validated phone_number of the PhoneAuth body, `code` the value
produced by generate_sms_code, `smsResult` the boolean outcome of the
notifier send_sms (an exception inside send_sms is caught and treated as
False by the handler, so a single boolean captures both). -/
def send_sms_code (s : StorageState) (primaryUp : Bool) (now : Nat)
    (phone code : String) (smsResult : Bool) : SendSmsRun :=
  let log0 : LogEntry := ⟨"info", "Получен запрос на отправку SMS для: ", [phone]⟩
  let log1 : LogEntry := ⟨"info", "Сгенерирован код:  для номера: ", [code, phone]⟩
  let setOk := (set_sms_code s primaryUp now phone code 300).1
  let s1 := (set_sms_code s primaryUp now phone code 300).2
  if setOk = false then
    ⟨.error codeStoreFailedErr, [log0, log1], s1⟩
  else
    let log2 : LogEntry := ⟨"info", "Попытка отправки SMS на ", [phone]⟩
    if smsResult then
      let log3 : LogEntry := ⟨"info", "SMS успешно отправлено на ", [phone]⟩
      ⟨.ok ⟨"SMS код отправлен", phone, code⟩, [log0, log1, log2, log3], s1⟩
    else
      let log3 : LogEntry := ⟨"error", "Ошибка отправки SMS на ", [phone]⟩
      let s2 := delete_sms_code s1 primaryUp phone
      ⟨.error smsSendFailedErr, [log0, log1, log2, log3], s2⟩

/-- POST /send-sms as reached from the wire: FastAPI first runs
PhoneAuth.validate_phone on the submitted number (a 422 on rejection) and the
handler then sees only the normalized form. -/
def request_code (s : StorageState) (primaryUp : Bool) (now : Nat)
    (rawPhone code : String) (smsResult : Bool) : SendSmsRun :=
  match validate_phone rawPhone with
  | .error e => ⟨.error ⟨422, e⟩, [], s⟩
  | .ok phone => send_sms_code s primaryUp now phone code smsResult

/-- The success body of POST /verify: the subject the JWT is minted for and
the token type (JWT encoding itself is outside the embedded core). -/
structure TokenOut where
  subject : String
  token_type : String
deriving DecidableEq, Repr

/-- Result of a verify_sms_code run. -/
structure VerifyRun where
  result : Except ApiError TokenOut
  logs : List LogEntry
  state : StorageState
  users : List DBUser
deriving DecidableEq, Repr

/-- Route handler verify_sms_code (src/routers/auth.py): the SMSCode body
carries the phone number exactly as submitted (the schema has no validator).
The stored code is fetched, the handler fails when it is absent (Python
truthiness: the empty string also counts as absent), the code is deleted
BEFORE the comparison, a mismatch then fails, and on a match the user row is
fetched by phone number, rejected when inactive, or created with role
'CLIENT' when missing; `newId` stands for the id the INSERT returns. -/
def verify_sms_code (s : StorageState) (primaryUp : Bool) (now : Nat)
    (phone code : String) (users : List DBUser) (newId : Nat) : VerifyRun :=
  let log0 : LogEntry := ⟨"info", "Попытка верификации кода для: ", [phone]⟩
  let stored? := (get_sms_code s primaryUp now phone).1
  let s1 := (get_sms_code s primaryUp now phone).2
  let log1 : LogEntry :=
    ⟨"info", "Получен код:  для номера: ", [stored?.getD "None", phone]⟩
  match stored? with
  | none =>
      let logw : LogEntry := ⟨"warning", "Код не найден для номера: ", [phone]⟩
      ⟨.error codeNotFoundErr, [log0, log1, logw], s1, users⟩
  | some stored =>
    if stored = "" then
      let logw : LogEntry := ⟨"warning", "Код не найден для номера: ", [phone]⟩
      ⟨.error codeNotFoundErr, [log0, log1, logw], s1, users⟩
    else
      let s2 := delete_sms_code s1 primaryUp phone
      if stored ≠ code then
        let logw : LogEntry :=
          ⟨"warning", "Неверный код для . Ожидался: , получен: ",
            [phone, stored, code]⟩
        ⟨.error codeMismatchErr, [log0, log1, logw], s2, users⟩
      else
        let log2 : LogEntry := ⟨"info", "Код верный для ", [phone]⟩
        match users.find? (fun u => u.phone_number == phone) with
        | some u =>
            if u.is_active = false then
              let logw : LogEntry :=
                ⟨"warning", "Попытка входа заблокированного пользователя: ",
                  [phone]⟩
              ⟨.error accountDisabledErr, [log0, log1, log2, logw], s2, users⟩
            else
              let log3 : LogEntry :=
                ⟨"info", "Успешная аутентификация для: ", [phone]⟩
              ⟨.ok ⟨phone, "bearer"⟩, [log0, log1, log2, log3], s2, users⟩
        | none =>
            let log3 : LogEntry :=
              ⟨"info", "Создание нового пользователя: ", [phone]⟩
            let newUser : DBUser := ⟨newId, phone, newUserRole, true⟩
            let log4 : LogEntry :=
              ⟨"info", "Успешная аутентификация для: ", [phone]⟩
            ⟨.ok ⟨phone, "bearer"⟩, [log0, log1, log2, log3, log4], s2,
              users ++ [newUser]⟩

/-! ## Orders (src/models.py, src/schemas.py, src/routers/orders.py) -/

/-- models.OrderStatus. -/
inductive OrderStatus where
  | created
  | received
  | sentToService
  | diagnosing
  | priceProposed
  | confirmed
  | rejected
  | inWork
  | ready
  | readyForPickup
  | delivered
deriving DecidableEq, Repr

/-- models.OrderCategory. -/
inductive OrderCategory where
  | tech
  | clothes
  | shoes
deriving DecidableEq, Repr

/-- models.PaymentMethod. -/
inductive PaymentMethod where
  | online
  | cash
deriving DecidableEq, Repr

/-- A row of the pvz table (the columns the order routes read). -/
structure PVZRow where
  id : Nat
  user_id : Nat
  is_active : Bool
deriving DecidableEq, Repr

/-- A row of the orders table (the columns the order routes read or write);
monetary amounts are integers here, their representation being immaterial to
the properties considered. -/
structure OrderRow where
  id : Nat
  order_number : String
  client_id : Nat
  service_id : Option Nat
  receive_pvz_id : Nat
  delivery_pvz_id : Nat
  category : OrderCategory
  subcategory : String
  description : String
  price_limit : Option Int
  proposed_price : Option Int
  final_price : Option Int
  price_justification : Option String
  payment_method : PaymentMethod
  status : OrderStatus
deriving DecidableEq, Repr

/-- The caller as returned by get_current_active_user: id and role string of
the users row (the dependency already rejected inactive users). -/
structure CurrentUser where
  id : Nat
  role : String
deriving DecidableEq, Repr

/-- schemas.OrderCreate. -/
structure OrderCreate where
  category : OrderCategory
  subcategory : String
  description : String
  price_limit : Option Int
  payment_method : PaymentMethod
  receive_pvz_id : Nat
  delivery_pvz_id : Nat
deriving DecidableEq, Repr

/-- schemas.OrderUpdate; a `none` field was not set in the request body and
is skipped by dict(exclude_unset=True). -/
structure OrderUpdate where
  status : Option OrderStatus
  proposed_price : Option Int
  final_price : Option Int
  price_justification : Option String
  service_id : Option Nat
deriving DecidableEq, Repr

/-- The 403 error of create_order for a non-client caller. -/
def onlyClientsErr : ApiError :=
  ⟨403, "Только клиенты могут создавать заказы"⟩

/-- The 404 error of create_order for a missing pickup point. -/
def pvzNotFoundErr : ApiError :=
  ⟨404, "ПВЗ не найден"⟩

/-- The 404 error of update_order for a missing order. -/
def orderNotFoundErr : ApiError :=
  ⟨404, "Заказ не найден"⟩

/-- The 403 error of update_order for an unauthorized caller. -/
def noUpdateRightsErr : ApiError :=
  ⟨403, "Нет прав на обновление заказа"⟩

/-- db.query(PVZ).filter(PVZ.id == pvz_id).first(): lookup by id only; the
is_active column is not part of the filter. -/
def find_pvz (pvzs : List PVZRow) (pvzId : Nat) : Option PVZRow :=
  pvzs.find? (fun p => p.id == pvzId)

/-- Route handler create_order (src/routers/orders.py): the caller must have
role string exactly client, both referenced pickup points must exist (their
is_active flag is never consulted), and the new row starts in status CREATED
with the caller as client; `orderNumber` stands for the generated
ORD-date-random number and `newId` for the id the insert assigns. -/
def create_order (pvzs : List PVZRow) (user : CurrentUser) (d : OrderCreate)
    (orderNumber : String) (newId : Nat) : Except ApiError OrderRow :=
  if user.role ≠ "client" then
    .error onlyClientsErr
  else
    match find_pvz pvzs d.receive_pvz_id, find_pvz pvzs d.delivery_pvz_id with
    | some _, some _ =>
        .ok ⟨newId, orderNumber, user.id, none, d.receive_pvz_id,
          d.delivery_pvz_id, d.category, d.subcategory, d.description,
          d.price_limit, none, none, none, d.payment_method,
          OrderStatus.created⟩
    | _, _ => .error pvzNotFoundErr

/-- The can_update check of update_order: the order's client, the assigned
service, or an admin (order.service_id == current_user.id is False in SQL
semantics when service_id is NULL). -/
def can_update (user : CurrentUser) (o : OrderRow) : Bool :=
  (user.role == "client" && o.client_id == user.id)
  || (user.role == "service" && o.service_id == some user.id)
  || (user.role == "admin")

/-- The field-by-field setattr loop of update_order over
order_update.dict(exclude_unset=True): every set field is written verbatim. -/
def apply_order_update (o : OrderRow) (u : OrderUpdate) : OrderRow :=
  { o with
      status := u.status.getD o.status,
      proposed_price :=
        match u.proposed_price with
        | some p => some p
        | none => o.proposed_price,
      final_price :=
        match u.final_price with
        | some p => some p
        | none => o.final_price,
      price_justification :=
        match u.price_justification with
        | some j => some j
        | none => o.price_justification,
      service_id :=
        match u.service_id with
        | some i => some i
        | none => o.service_id }

/-- Route handler update_order (src/routers/orders.py): find the order,
check can_update, then apply every set field of the body unconditionally;
there is no check of the requested status against the current one. -/
def update_order (orders : List OrderRow) (user : CurrentUser)
    (orderId : Nat) (upd : OrderUpdate) : Except ApiError OrderRow :=
  match orders.find? (fun o => o.id == orderId) with
  | none => .error orderNotFoundErr
  | some order =>
      if can_update user order then
        .ok (apply_order_update order upd)
      else
        .error noUpdateRightsErr

/-- The PVZ-ownership subquery of get_orders: pvz_id is among the ids of
pvz rows whose user_id is the caller. -/
def pvz_owned (pvzs : List PVZRow) (userId pvzId : Nat) : Bool :=
  pvzs.any (fun p => p.user_id == userId && p.id == pvzId)

/-- The trailing status filter of get_orders. -/
def apply_status_filter (sf : Option OrderStatus) (l : List OrderRow) :
    List OrderRow :=
  match sf with
  | some st => l.filter (fun o => o.status == st)
  | none => l

/-- Route handler get_orders (src/routers/orders.py): a relationship filter
is chosen by exact string comparison of the caller's role against client,
service and pvz, every other role string receiving the unfiltered query; the
optional status filter is applied afterwards.  The created_at ordering of the
final query does not affect membership and is not modelled. -/
def get_orders (orders : List OrderRow) (pvzs : List PVZRow)
    (user : CurrentUser) (statusFilter : Option OrderStatus) : List OrderRow :=
  let q :=
    if user.role = "client" then
      orders.filter (fun o => o.client_id == user.id)
    else if user.role = "service" then
      orders.filter (fun o => o.service_id == some user.id)
    else if user.role = "pvz" then
      orders.filter (fun o =>
        pvz_owned pvzs user.id o.receive_pvz_id
        || pvz_owned pvzs user.id o.delivery_pvz_id)
    else
      orders
  apply_status_filter statusFilter q

/-! ## Spec-side definitions (spec sections 4.1 and 6)

These two definitions transcribe the specification's lifecycle graph and
per-edge authorization matrix.  They have no counterpart anywhere in the
sources; they exist solely so that the code's behaviour can be compared
against what the spec asserts. -/

/-- Spec section 4.1 lifecycle graph, spec-side: CREATED → RECEIVED →
SENT_TO_SERVICE → DIAGNOSING → PRICE_PROPOSED → (CONFIRMED or REJECTED),
CONFIRMED → IN_WORK → READY → READY_FOR_PICKUP → DELIVERED; REJECTED and
DELIVERED are terminal. -/
def spec_edge : OrderStatus → OrderStatus → Bool
  | .created, .received => true
  | .received, .sentToService => true
  | .sentToService, .diagnosing => true
  | .diagnosing, .priceProposed => true
  | .priceProposed, .confirmed => true
  | .priceProposed, .rejected => true
  | .confirmed, .inWork => true
  | .inWork, .ready => true
  | .ready, .readyForPickup => true
  | .readyForPickup, .delivered => true
  | _, _ => false

/-- Spec section 4.1 authorization matrix, spec-side: which role and
relationship the spec requires for a transition into the given target status
(admin is unconditional). -/
def spec_transition_authorized (pvzs : List PVZRow) (user : CurrentUser)
    (o : OrderRow) (target : OrderStatus) : Bool :=
  user.role == "admin"
  || match target with
     | .created => user.role == "client"
     | .received => user.role == "pvz" && pvz_owned pvzs user.id o.receive_pvz_id
     | .sentToService =>
         user.role == "pvz" && pvz_owned pvzs user.id o.receive_pvz_id
     | .diagnosing => user.role == "service" && o.service_id == some user.id
     | .priceProposed => user.role == "service" && o.service_id == some user.id
     | .confirmed => user.role == "client" && o.client_id == user.id
     | .rejected => user.role == "client" && o.client_id == user.id
     | .inWork => user.role == "service" && o.service_id == some user.id
     | .ready => user.role == "service" && o.service_id == some user.id
     | .readyForPickup =>
         user.role == "pvz" && pvz_owned pvzs user.id o.delivery_pvz_id
     | .delivered =>
         user.role == "pvz" && pvz_owned pvzs user.id o.delivery_pvz_id

/-! ## Storage lemmas

Shared facts about the two-tier code store, used by several claims below. -/

theorem fallback_get_flag (s : StorageState) (now : Nat) (phone : String) :
    (get_sms_code_fallback s now phone).2.redisFlag = s.redisFlag := by
  unfold get_sms_code_fallback
  by_cases h : s.cleanupTime + 300 < now
  · simp only [if_pos h]
    cases alookup (cleanup_expired_codes s.devStore now) phone with
    | none => rfl
    | some d =>
      by_cases he : now < d.expires
      · simp [he]
      · simp [he]
  · simp only [if_neg h]
    cases alookup s.devStore phone with
    | none => rfl
    | some d =>
      by_cases he : now < d.expires
      · simp [he]
      · simp [he]

theorem fallback_get_none (s : StorageState) (now : Nat) (phone : String)
    (hs : alookup s.devStore phone = none) :
    (get_sms_code_fallback s now phone).1 = none := by
  unfold get_sms_code_fallback
  by_cases h : s.cleanupTime + 300 < now
  · have hc : alookup (cleanup_expired_codes s.devStore now) phone = none := by
      unfold cleanup_expired_codes
      exact alookup_filter_none _ _ _ hs
    simp only [if_pos h]
    rw [hc]
  · simp only [if_neg h]
    rw [hs]

theorem consumed_tail (s1 : StorageState) (h : s1.redisFlag = false)
    (up : Bool) (t2 : Nat) (phone : String) :
    (get_sms_code (delete_sms_code s1 up phone) up t2 phone).1 = none := by
  have hdel : delete_sms_code s1 up phone = delete_sms_code_fallback s1 phone := by
    simp [delete_sms_code, h]
  rw [hdel]
  simp only [get_sms_code, delete_sms_code_fallback, h, Bool.false_eq_true,
    if_false]
  apply fallback_get_none
  exact alookup_adel s1.devStore phone

theorem redis_tail (s : StorageState) (h : s.redisFlag = true)
    (t2 : Nat) (phone : String) :
    (get_sms_code (delete_sms_code s true phone) true t2 phone).1 = none := by
  simp [delete_sms_code, h, get_sms_code, redisGet, alookup_adel]

theorem get_delete_get_none (s : StorageState) (up : Bool) (t1 t2 : Nat)
    (phone : String) :
    (get_sms_code
      (delete_sms_code (get_sms_code s up t1 phone).2 up phone)
      up t2 phone).1 = none := by
  cases hf : s.redisFlag with
  | true =>
    cases up with
    | true =>
      have hsnd : (get_sms_code s true t1 phone).2 = s := by
        simp [get_sms_code, hf]
      rw [hsnd]
      exact redis_tail s hf t2 phone
    | false =>
      have hsnd : (get_sms_code s false t1 phone).2
          = (get_sms_code_fallback { s with redisFlag := false } t1 phone).2 := by
        simp [get_sms_code, hf]
      rw [hsnd]
      exact consumed_tail _ (fallback_get_flag _ _ _) false t2 phone
  | false =>
    have hsnd : (get_sms_code s up t1 phone).2
        = (get_sms_code_fallback s t1 phone).2 := by
      simp [get_sms_code, hf]
    rw [hsnd]
    have : (get_sms_code_fallback s t1 phone).2.redisFlag = false := by
      rw [fallback_get_flag]
      exact hf
    exact consumed_tail _ this up t2 phone

theorem alookup_filter_aset_none {α : Type} (l : List (String × α))
    (k : String) (v : α) (p : String × α → Bool) (hp : p (k, v) = false) :
    alookup ((aset l k v).filter p) k = none := by
  simp only [aset, List.filter, hp]
  exact alookup_filter_none _ _ _ (alookup_adel l k)

theorem set_fallback_flag (s : StorageState) (now : Nat)
    (phone code : String) (ttl : Nat) :
    (set_sms_code_fallback s now phone code ttl).2.redisFlag = s.redisFlag :=
  rfl

theorem get_after_set_fallback_live (s : StorageState) (t tq ttl : Nat)
    (phone code : String) (h : tq < t + ttl) :
    (get_sms_code_fallback ((set_sms_code_fallback s t phone code ttl).2)
      tq phone).1 = some code := by
  unfold set_sms_code_fallback get_sms_code_fallback
  by_cases hc : s.cleanupTime + 300 < tq
  · have hlook :
        alookup (cleanup_expired_codes (aset s.devStore phone ⟨code, t + ttl⟩) tq)
          phone = some ⟨code, t + ttl⟩ := by
      unfold cleanup_expired_codes
      exact alookup_filter_some _ _ _ _ (alookup_aset _ _ _) (by simp [h])
    simp only [if_pos hc]
    rw [hlook]
    simp [h]
  · simp only [if_neg hc]
    rw [alookup_aset]
    simp [h]

theorem get_after_set_fallback_expired (s : StorageState) (t tq ttl : Nat)
    (phone code : String) (h : t + ttl ≤ tq) :
    (get_sms_code_fallback ((set_sms_code_fallback s t phone code ttl).2)
      tq phone).1 = none := by
  have hlt : ¬ tq < t + ttl := Nat.not_lt.mpr h
  unfold set_sms_code_fallback get_sms_code_fallback
  by_cases hc : s.cleanupTime + 300 < tq
  · have hlook :
        alookup (cleanup_expired_codes (aset s.devStore phone ⟨code, t + ttl⟩) tq)
          phone = none := by
      unfold cleanup_expired_codes
      exact alookup_filter_aset_none _ _ _ _ (by simp [hlt])
    simp only [if_pos hc]
    rw [hlook]
  · simp only [if_neg hc]
    rw [alookup_aset]
    simp [hlt]

theorem verify_result_of_get_none (s : StorageState) (up : Bool) (now : Nat)
    (phone code : String) (users : List DBUser) (newId : Nat)
    (hg : (get_sms_code s up now phone).1 = none) :
    (verify_sms_code s up now phone code users newId).result
      = .error codeNotFoundErr := by
  simp [verify_sms_code, hg]

theorem set_sms_code_ok (s : StorageState) (up : Bool) (now : Nat)
    (phone code : String) (ttl : Nat) :
    (set_sms_code s up now phone code ttl).1 = true := by
  cases hf : s.redisFlag <;> cases up <;>
    simp [set_sms_code, set_sms_code_fallback, hf]

theorem get_after_set_expired (s : StorageState) (up : Bool) (t tq : Nat)
    (phone code : String) (h : t + 300 ≤ tq) :
    (get_sms_code ((set_sms_code s up t phone code 300).2) up tq phone).1
      = none := by
  cases hf : s.redisFlag with
  | true =>
    cases up with
    | true =>
      simp only [set_sms_code, hf, if_true]
      simp only [get_sms_code, if_true, redisSetex, redisGet, alookup_aset]
      simp [Nat.not_lt.mpr h]
    | false =>
      have h1 : (set_sms_code s false t phone code 300).2
          = (set_sms_code_fallback { s with redisFlag := false }
              t phone code 300).2 := by
        simp [set_sms_code, hf]
      rw [h1]
      have h2 : ((set_sms_code_fallback { s with redisFlag := false }
          t phone code 300).2).redisFlag = false := rfl
      simp only [get_sms_code, h2, Bool.false_eq_true, if_false]
      exact get_after_set_fallback_expired _ _ _ _ _ _ h
  | false =>
    have h1 : (set_sms_code s up t phone code 300).2
        = (set_sms_code_fallback s t phone code 300).2 := by
      simp [set_sms_code, hf]
    rw [h1]
    have h2 : ((set_sms_code_fallback s t phone code 300).2).redisFlag
        = false := by
      rw [set_fallback_flag]
      exact hf
    simp only [get_sms_code, h2, Bool.false_eq_true, if_false]
    exact get_after_set_fallback_expired _ _ _ _ _ _ h

theorem get_after_set_live (s : StorageState) (up : Bool) (t tq : Nat)
    (phone code : String) (h : tq < t + 300) :
    (get_sms_code ((set_sms_code s up t phone code 300).2) up tq phone).1
      = some code := by
  cases hf : s.redisFlag with
  | true =>
    cases up with
    | true =>
      simp only [set_sms_code, hf, if_true]
      simp only [get_sms_code, if_true, redisSetex, redisGet, alookup_aset]
      simp [h]
    | false =>
      have h1 : (set_sms_code s false t phone code 300).2
          = (set_sms_code_fallback { s with redisFlag := false }
              t phone code 300).2 := by
        simp [set_sms_code, hf]
      rw [h1]
      have h2 : ((set_sms_code_fallback { s with redisFlag := false }
          t phone code 300).2).redisFlag = false := rfl
      simp only [get_sms_code, h2, Bool.false_eq_true, if_false]
      exact get_after_set_fallback_live _ _ _ _ _ _ h
  | false =>
    have h1 : (set_sms_code s up t phone code 300).2
        = (set_sms_code_fallback s t phone code 300).2 := by
      simp [set_sms_code, hf]
    rw [h1]
    have h2 : ((set_sms_code_fallback s t phone code 300).2).redisFlag
        = false := by
      rw [set_fallback_flag]
      exact hf
    simp only [get_sms_code, h2, Bool.false_eq_true, if_false]
    exact get_after_set_fallback_live _ _ _ _ _ _ h

theorem get_after_set_delete_none (s : StorageState) (up : Bool) (t tq : Nat)
    (phone code : String) :
    (get_sms_code
      (delete_sms_code ((set_sms_code s up t phone code 300).2) up phone)
      up tq phone).1 = none := by
  cases hf : s.redisFlag with
  | true =>
    cases up with
    | true =>
      have h1 : ((set_sms_code s true t phone code 300).2).redisFlag = true := by
        simp [set_sms_code, hf]
      exact redis_tail _ h1 tq phone
    | false =>
      have h1 : ((set_sms_code s false t phone code 300).2).redisFlag
          = false := by
        simp [set_sms_code, hf, set_fallback_flag]
      exact consumed_tail _ h1 false tq phone
  | false =>
    have h1 : ((set_sms_code s up t phone code 300).2).redisFlag = false := by
      cases up <;> simp [set_sms_code, hf, set_fallback_flag]
    exact consumed_tail _ h1 up tq phone

theorem verify_state_consumed (s : StorageState) (up : Bool) (now : Nat)
    (phone code : String) (users : List DBUser) (newId : Nat) (stored : String)
    (hg : (get_sms_code s up now phone).1 = some stored) (hne : stored ≠ "") :
    (verify_sms_code s up now phone code users newId).state
      = delete_sms_code (get_sms_code s up now phone).2 up phone := by
  by_cases hsc : stored = code
  · subst hsc
    cases hf : users.find? (fun u => u.phone_number == phone) with
    | none => simp [verify_sms_code, hg, hne, hf]
    | some u =>
      by_cases ha : u.is_active = false
      · simp [verify_sms_code, hg, hne, hf, ha]
      · simp [verify_sms_code, hg, hne, hf, ha]
  · simp [verify_sms_code, hg, hne, hsc]

/-! ## Claim theorems -/

/-- Claim C3: a verification code is single-use.  verify_sms_code deletes the
stored code before comparing it, so whenever a first verification attempt got
past the code lookup (its outcome is anything other than CodeNotFound — a
success, a mismatch, or a disabled account), a second call for the same phone
number, in particular one resubmitting the same correct code, fails with
CodeNotFound. -/
theorem verify_code_single_use (s : StorageState) (up : Bool) (t1 t2 : Nat)
    (phone code : String) (users users2 : List DBUser) (nid nid2 : Nat)
    (h : (verify_sms_code s up t1 phone code users nid).result
      ≠ .error codeNotFoundErr) :
    (verify_sms_code (verify_sms_code s up t1 phone code users nid).state
      up t2 phone code users2 nid2).result = .error codeNotFoundErr := by
  cases hg : (get_sms_code s up t1 phone).1 with
  | none =>
    exact absurd (verify_result_of_get_none s up t1 phone code users nid hg) h
  | some stored =>
    by_cases hne : stored = ""
    · have : (verify_sms_code s up t1 phone code users nid).result
          = .error codeNotFoundErr := by
        simp [verify_sms_code, hg, hne]
      exact absurd this h
    · rw [verify_state_consumed s up t1 phone code users nid stored hg hne]
      exact verify_result_of_get_none _ _ _ _ _ _ _
        (get_delete_get_none s up t1 t2 phone)

/-- Claim C3 witness: a concrete first verification succeeds and the second
one with the same correct code fails with CodeNotFound. -/
theorem verify_code_single_use_witness :
    (verify_sms_code ⟨false, [], [("p", ⟨"1234", 300⟩)], 0⟩ false 0 "p" "1234"
        [] 1).result ≠ .error codeNotFoundErr
    ∧ (verify_sms_code
        (verify_sms_code ⟨false, [], [("p", ⟨"1234", 300⟩)], 0⟩ false 0 "p"
          "1234" [] 1).state false 5 "p" "1234" [] 2).result
        = .error codeNotFoundErr :=
  ⟨by decide,
    verify_code_single_use ⟨false, [], [("p", ⟨"1234", 300⟩)], 0⟩ false 0 5
      "p" "1234" [] [] 1 2 (by decide)⟩

/-- Claim C4: the TTL is enforced.  A code stored at second t with the
default TTL of 300 is no longer accepted at any second strictly after
t + 300: verification fails with CodeNotFound even when the submitted value
equals the stored one, and in the fallback tier the read itself already
returns no code. -/
theorem verify_code_ttl (s : StorageState) (up : Bool) (t tq : Nat)
    (phone code submitted : String) (users : List DBUser) (nid : Nat)
    (h : t + 300 < tq) :
    (verify_sms_code ((set_sms_code s up t phone code 300).2) up tq phone
      submitted users nid).result = .error codeNotFoundErr
    ∧ (get_sms_code_fallback ((set_sms_code_fallback s t phone code 300).2)
        tq phone).1 = none := by
  constructor
  · exact verify_result_of_get_none _ _ _ _ _ _ _
      (get_after_set_expired s up t tq phone code (Nat.le_of_lt h))
  · exact get_after_set_fallback_expired s t tq 300 phone code (Nat.le_of_lt h)

/-- Claim C4 witness: a concrete code stored at second 0 is rejected with
CodeNotFound when resubmitted unchanged at second 301. -/
theorem verify_code_ttl_witness :
    (0 : Nat) + 300 < 301
    ∧ ((verify_sms_code ((set_sms_code ⟨false, [], [], 0⟩ false 0 "p" "1234"
          300).2) false 301 "p" "1234" [] 1).result = .error codeNotFoundErr
       ∧ (get_sms_code_fallback ((set_sms_code_fallback ⟨false, [], [], 0⟩ 0
            "p" "1234" 300).2) 301 "p").1 = none) :=
  ⟨by decide,
    verify_code_ttl ⟨false, [], [], 0⟩ false 0 301 "p" "1234" "1234" [] 1
      (by decide)⟩

/-- Claim C5: fallback round-trip and transparency.  Setting a code and
reading it back within the TTL yields that code for either value of the
primary-tier reachability flag — in particular via the in-memory secondary
tier when the primary is unreachable — the set still reports success, and
when the primary was believed available its first error permanently clears
redisFlag, sending every subsequent operation to the secondary tier. -/
theorem code_store_fallback_roundtrip (s : StorageState) (t tq : Nat)
    (phone code : String) (h : tq < t + 300) :
    (∀ up, (get_sms_code ((set_sms_code s up t phone code 300).2) up tq
      phone).1 = some code)
    ∧ (set_sms_code s false t phone code 300).1 = true
    ∧ ((set_sms_code s false t phone code 300).2).redisFlag = false := by
  refine ⟨fun up => get_after_set_live s up t tq phone code h, ?_, ?_⟩
  · exact set_sms_code_ok s false t phone code 300
  · cases hf : s.redisFlag <;> simp [set_sms_code, hf, set_fallback_flag]

/-- Claim C5 witness: with the primary tier unreachable and previously
believed available, a concrete set marks it unavailable and the get within
the TTL returns the code from the in-memory tier. -/
theorem code_store_fallback_roundtrip_witness :
    (10 : Nat) < 0 + 300
    ∧ (get_sms_code ((set_sms_code ⟨true, [], [], 0⟩ false 0 "p" "1234"
        300).2) false 10 "p").1 = some "1234" :=
  ⟨by decide,
    (code_store_fallback_roundtrip ⟨true, [], [], 0⟩ 0 10 "p" "1234"
      (by decide)).1 false⟩

/-- Claim C7: when the notifier reports failure, send_sms_code deletes the
code it had just stored before raising the 500 error, so no code remains
retrievable for that phone number and a later verification with any
submitted value fails with CodeNotFound. -/
theorem notifier_failure_revokes_code (s : StorageState) (up : Bool)
    (t tq : Nat) (phone code submitted : String) (users : List DBUser)
    (nid : Nat) :
    (send_sms_code s up t phone code false).result = .error smsSendFailedErr
    ∧ (get_sms_code ((send_sms_code s up t phone code false).state) up tq
        phone).1 = none
    ∧ (verify_sms_code ((send_sms_code s up t phone code false).state) up tq
        phone submitted users nid).result = .error codeNotFoundErr := by
  have hstate : (send_sms_code s up t phone code false).state
      = delete_sms_code ((set_sms_code s up t phone code 300).2) up phone := by
    simp [send_sms_code, set_sms_code_ok]
  have hres : (send_sms_code s up t phone code false).result
      = .error smsSendFailedErr := by
    simp [send_sms_code, set_sms_code_ok]
  have hget : (get_sms_code ((send_sms_code s up t phone code false).state)
      up tq phone).1 = none := by
    rw [hstate]
    exact get_after_set_delete_none s up t tq phone code
  exact ⟨hres, hget, verify_result_of_get_none _ _ _ _ _ _ _ hget⟩

/-- Claim C10: get_orders selects its relationship filter by exact string
comparison against client, service and pvz; every other role string —
including admin and the value CLIENT that verify_sms_code writes for an
auto-created user — receives the whole orders table, subject only to the
optional status filter. -/
theorem list_orders_role_filter (orders : List OrderRow) (pvzs : List PVZRow)
    (u : CurrentUser) (sf : Option OrderStatus)
    (h1 : u.role ≠ "client") (h2 : u.role ≠ "service") (h3 : u.role ≠ "pvz") :
    get_orders orders pvzs u sf = apply_status_filter sf orders
    ∧ get_orders orders pvzs ⟨u.id, newUserRole⟩ sf
        = apply_status_filter sf orders
    ∧ get_orders orders pvzs ⟨u.id, "admin"⟩ sf
        = apply_status_filter sf orders
    ∧ get_orders orders pvzs ⟨u.id, "client"⟩ sf
        = apply_status_filter sf (orders.filter (fun o => o.client_id == u.id))
    ∧ get_orders orders pvzs ⟨u.id, "service"⟩ sf
        = apply_status_filter sf
            (orders.filter (fun o => o.service_id == some u.id))
    ∧ get_orders orders pvzs ⟨u.id, "pvz"⟩ sf
        = apply_status_filter sf
            (orders.filter (fun o =>
              pvz_owned pvzs u.id o.receive_pvz_id
              || pvz_owned pvzs u.id o.delivery_pvz_id)) := by
  refine ⟨?_, ?_, ?_, ?_, ?_, ?_⟩
  · unfold get_orders
    rw [if_neg h1, if_neg h2, if_neg h3]
  · unfold get_orders
    rw [if_neg (show ¬ (newUserRole = "client") by decide),
      if_neg (show ¬ (newUserRole = "service") by decide),
      if_neg (show ¬ (newUserRole = "pvz") by decide)]
  · unfold get_orders
    rw [if_neg (show ¬ (("admin" : String) = "client") by decide),
      if_neg (show ¬ (("admin" : String) = "service") by decide),
      if_neg (show ¬ (("admin" : String) = "pvz") by decide)]
  · unfold get_orders
    rw [if_pos rfl]
  · unfold get_orders
    rw [if_neg (show ¬ (("service" : String) = "client") by decide),
      if_pos rfl]
  · unfold get_orders
    rw [if_neg (show ¬ (("pvz" : String) = "client") by decide),
      if_neg (show ¬ (("pvz" : String) = "service") by decide),
      if_pos rfl]

/-- Claim C10 witness: a caller whose stored role is the auto-created value
CLIENT sees the whole orders table. -/
theorem list_orders_role_filter_witness :
    (("CLIENT" : String) ≠ "client"
      ∧ ("CLIENT" : String) ≠ "service" ∧ ("CLIENT" : String) ≠ "pvz")
    ∧ get_orders
        [⟨1, "ORD-1", 10, none, 1, 2, .tech, "s", "d", none, none, none, none,
          .cash, .created⟩]
        [] ⟨7, "CLIENT"⟩ none
      = apply_status_filter none
        [⟨1, "ORD-1", 10, none, 1, 2, .tech, "s", "d", none, none, none, none,
          .cash, .created⟩] :=
  ⟨⟨by decide, by decide, by decide⟩,
    (list_orders_role_filter
      [⟨1, "ORD-1", 10, none, 1, 2, .tech, "s", "d", none, none, none, none,
        .cash, .created⟩]
      [] ⟨7, "CLIENT"⟩ none (by decide) (by decide) (by decide)).1⟩

/-- Whether a handler outcome is a success. -/
def isOk {α : Type} (e : Except ApiError α) : Bool :=
  match e with
  | .ok _ => true
  | .error _ => false

/-- The order used in the C1 scenario: already DELIVERED. -/
def cexOrder : OrderRow :=
  ⟨1, "ORD-1", 10, none, 1, 2, .tech, "смартфон", "не включается", none,
    none, none, none, .cash, .delivered⟩

/-- An admin caller. -/
def cexAdmin : CurrentUser := ⟨99, "admin"⟩

/-- An update request asking for the backward DELIVERED → CREATED move. -/
def cexRegressUpd : OrderUpdate := ⟨some .created, none, none, none, none⟩

/-- Claim C1 counterexample: DELIVERED → CREATED is not an edge of the
section 4.1 graph, yet update_order accepts it for an authorized caller,
returns success instead of an InvalidTransition error, and the stored status
regresses. -/
theorem order_transition_unchecked_cex :
    spec_edge OrderStatus.delivered OrderStatus.created = false
    ∧ update_order [cexOrder] cexAdmin 1 cexRegressUpd
        = .ok { cexOrder with status := OrderStatus.created } := by
  decide

/-- Claim C1 (amended): the order-update operation performs no lifecycle
validation at all: whenever the order exists and can_update authorizes the
caller, the update succeeds and every requested status value is written
verbatim — including moves that are not edges of the section 4.1 graph —
and no InvalidTransition error exists in the handler. -/
theorem order_update_no_transition_check (orders : List OrderRow)
    (user : CurrentUser) (orderId : Nat) (upd : OrderUpdate) (o : OrderRow)
    (hfind : orders.find? (fun x => x.id == orderId) = some o)
    (hauth : can_update user o = true) :
    update_order orders user orderId upd = .ok (apply_order_update o upd)
    ∧ (∀ st, upd.status = some st → (apply_order_update o upd).status = st) := by
  constructor
  · simp [update_order, hfind, hauth]
  · intro st hst
    simp [apply_order_update, hst]

/-- Claim C1 amended-theorem witness: the concrete DELIVERED → CREATED
regression goes through. -/
theorem order_update_no_transition_check_witness :
    ([cexOrder].find? (fun x => x.id == 1) = some cexOrder
      ∧ can_update cexAdmin cexOrder = true)
    ∧ (update_order [cexOrder] cexAdmin 1 cexRegressUpd
        = .ok (apply_order_update cexOrder cexRegressUpd)
      ∧ ∀ st, cexRegressUpd.status = some st →
          (apply_order_update cexOrder cexRegressUpd).status = st) :=
  ⟨⟨by decide, by decide⟩,
    order_update_no_transition_check [cexOrder] cexAdmin 1 cexRegressUpd
      cexOrder (by decide) (by decide)⟩

/-- A freshly created order for the C2 scenario. -/
def c2Order : OrderRow :=
  ⟨2, "ORD-2", 10, none, 1, 2, .tech, "ноутбук", "разбит экран", none,
    none, none, none, .online, .created⟩

/-- The operator of the order's receiving pickup point. -/
def c2PvzUser : CurrentUser := ⟨20, "pvz"⟩

/-- The pickup-point table for the C2 scenario: PVZ 1 belongs to user 20. -/
def c2Pvzs : List PVZRow := [⟨1, 20, true⟩, ⟨2, 21, true⟩]

/-- Claim C2 counterexample: the spec matrix authorizes the operator of the
receiving pickup point for the → RECEIVED edge, but update_order rejects
every pvz-role caller with 403, so the succeeds-iff-matrix claim fails. -/
theorem transition_auth_matrix_cex :
    spec_transition_authorized c2Pvzs c2PvzUser c2Order OrderStatus.received
      = true
    ∧ update_order [c2Order] c2PvzUser 2 ⟨some .received, none, none, none,
        none⟩ = .error noUpdateRightsErr := by
  decide

/-- Claim C2 (amended): creation succeeds exactly when the caller's role is
client and both referenced pickup points exist; an update — whatever edge it
requests — succeeds exactly when the order exists and the caller is its
client, its assigned service, or an admin.  The per-edge matrix of section
4.1 is not enforced: in particular a pvz-role caller can never perform any
transition. -/
theorem order_authorization_characterization :
    (∀ (pvzs : List PVZRow) (user : CurrentUser) (d : OrderCreate)
        (onum : String) (nid : Nat),
      isOk (create_order pvzs user d onum nid)
        = ((user.role == "client")
            && (find_pvz pvzs d.receive_pvz_id).isSome
            && (find_pvz pvzs d.delivery_pvz_id).isSome))
    ∧ (∀ (orders : List OrderRow) (user : CurrentUser) (orderId : Nat)
        (upd : OrderUpdate),
      isOk (update_order orders user orderId upd)
        = ((orders.find? (fun o => o.id == orderId)).map
            (fun o => can_update user o)).getD false) := by
  constructor
  · intro pvzs user d onum nid
    by_cases hr : user.role = "client"
    · cases hf1 : find_pvz pvzs d.receive_pvz_id with
      | none => simp [create_order, hr, hf1, isOk]
      | some p1 =>
        cases hf2 : find_pvz pvzs d.delivery_pvz_id with
        | none => simp [create_order, hr, hf1, hf2, isOk]
        | some p2 => simp [create_order, hr, hf1, hf2, isOk]
    · simp [create_order, hr, isOk]
  · intro orders user orderId upd
    cases hf : orders.find? (fun o => o.id == orderId) with
    | none => simp [update_order, hf, isOk]
    | some o =>
      by_cases ha : can_update user o = true
      · simp [update_order, hf, ha, isOk]
      · rw [Bool.not_eq_true] at ha
        simp [update_order, hf, ha, isOk]

/-- An existing but deactivated pickup point. -/
def c8Pvz : PVZRow := ⟨1, 5, false⟩

/-- The order-creation request of the C8 scenario, pointing both references
at the deactivated pickup point. -/
def c8Create : OrderCreate := ⟨.tech, "смартфон", "не включается", none,
  .cash, 1, 1⟩

/-- Claim C8 counterexample: both referenced pickup points exist but are
inactive, yet create_order succeeds — the is_active flag is never checked,
contradicting the claim that an inactive reference fails with PvzNotFound
and creates no order. -/
theorem create_order_inactive_pvz_cex :
    c8Pvz.is_active = false
    ∧ isOk (create_order [c8Pvz] ⟨10, "client"⟩ c8Create "ORD-X" 7) = true := by
  decide

/-- Claim C8 (amended): for a client caller, create_order fails with the
PVZ-not-found error exactly when one of the two referenced pickup points is
missing from the pvz table, and succeeds whenever both are present — their
is_active flag plays no part, so an existing but deactivated pickup point is
accepted. -/
theorem create_order_pvz_check (pvzs : List PVZRow) (user : CurrentUser)
    (d : OrderCreate) (onum : String) (nid : Nat)
    (hr : user.role = "client") :
    ((create_order pvzs user d onum nid = .error pvzNotFoundErr)
      ↔ (find_pvz pvzs d.receive_pvz_id = none
          ∨ find_pvz pvzs d.delivery_pvz_id = none))
    ∧ ((find_pvz pvzs d.receive_pvz_id).isSome = true →
        (find_pvz pvzs d.delivery_pvz_id).isSome = true →
        isOk (create_order pvzs user d onum nid) = true) := by
  cases hf1 : find_pvz pvzs d.receive_pvz_id with
  | none =>
    constructor
    · simp [create_order, hr, hf1]
    · intro hs1 hs2
      simp at hs1
  | some p1 =>
    cases hf2 : find_pvz pvzs d.delivery_pvz_id with
    | none =>
      constructor
      · simp [create_order, hr, hf1, hf2]
      · intro hs1 hs2
        simp at hs2
    | some p2 =>
      constructor
      · simp [create_order, hr, hf1, hf2, pvzNotFoundErr]
      · intro hs1 hs2
        simp [create_order, hr, hf1, hf2, isOk]

/-- Claim C8 amended-theorem witness: the concrete deactivated pickup point
is accepted. -/
theorem create_order_pvz_check_witness :
    ((⟨10, "client"⟩ : CurrentUser).role = "client")
    ∧ (((create_order [c8Pvz] ⟨10, "client"⟩ c8Create "ORD-X" 7
          = .error pvzNotFoundErr)
        ↔ (find_pvz [c8Pvz] c8Create.receive_pvz_id = none
            ∨ find_pvz [c8Pvz] c8Create.delivery_pvz_id = none))
      ∧ ((find_pvz [c8Pvz] c8Create.receive_pvz_id).isSome = true →
          (find_pvz [c8Pvz] c8Create.delivery_pvz_id).isSome = true →
          isOk (create_order [c8Pvz] ⟨10, "client"⟩ c8Create "ORD-X" 7)
            = true)) :=
  ⟨rfl, create_order_pvz_check [c8Pvz] ⟨10, "client"⟩ c8Create "ORD-X" 7 rfl⟩

/-- The storage state after RequestCode("9991234567") with generated code
`code` succeeds against an initially empty fallback-tier store at second 0:
the code is stored under the normalized number. -/
def c6_state (code : String) : StorageState :=
  (request_code ⟨false, [], [], 0⟩ false 0 "9991234567" code true).state

theorem c6_state_eq (code : String) :
    c6_state code
      = ⟨false, [], [("+7 999 123-45-67", ⟨code, 300⟩)], 0⟩ := by
  unfold c6_state request_code
  rw [show validate_phone "9991234567" = .ok "+7 999 123-45-67" by decide]
  simp [send_sms_code, set_sms_code, set_sms_code_fallback, aset, adel]

theorem c6_get_raw_none (code : String) (t : Nat) (ht : t < 300) :
    (get_sms_code (c6_state code) false t "9991234567").1 = none := by
  rw [c6_state_eq]
  have hk : (("+7 999 123-45-67" : String) == "9991234567") = false := by
    decide
  have hcl : ¬ ((300 : Nat) < t) := by omega
  simp [get_sms_code, get_sms_code_fallback, alookup, List.find?, hk, hcl]

theorem c6_get_normalized (code : String) (t : Nat) (ht : t < 300) :
    (get_sms_code (c6_state code) false t "+7 999 123-45-67").1
      = some code := by
  rw [c6_state_eq]
  have hcl : ¬ ((300 : Nat) < t) := by omega
  simp [get_sms_code, get_sms_code_fallback, alookup, List.find?, hcl, ht]

/-- Claim C6 counterexample: after RequestCode("9991234567") the code lives
under the normalized key, so VerifyCode("9991234567", wrong_code) fails with
CodeNotFound — not with the CodeMismatch the claim asserts — because the
lookup key differs from the stored key. -/
theorem verify_wrong_key_cex :
    (verify_sms_code (c6_state "1234") false 0 "9991234567" "0000" [] 1).result
      = .error codeNotFoundErr
    ∧ codeNotFoundErr ≠ codeMismatchErr
    ∧ (c6_state "1234").devStore
        = [("+7 999 123-45-67", ⟨"1234", 300⟩)] := by
  refine ⟨?_, by decide, ?_⟩
  · exact verify_result_of_get_none _ _ _ _ _ _ _
      (c6_get_raw_none "1234" 0 (by decide))
  · rw [c6_state_eq]

/-- Claim C6 (amended): after RequestCode("9991234567") stores the code under
the normalized number +7 999 123-45-67, VerifyCode with the raw submitted
number fails with CodeNotFound (the keys differ); VerifyCode with the
normalized number and a wrong code fails with CodeMismatch and consumes the
code, after which VerifyCode with the normalized number and the originally
correct code fails with CodeNotFound. -/
theorem verify_normalization_mismatch (code wrong : String) (t : Nat)
    (hcode : code ≠ "") (hw : wrong ≠ code) (ht : t < 300) :
    (verify_sms_code (c6_state code) false t "9991234567" wrong [] 1).result
      = .error codeNotFoundErr
    ∧ (verify_sms_code (c6_state code) false t "+7 999 123-45-67" wrong []
        1).result = .error codeMismatchErr
    ∧ (verify_sms_code
        ((verify_sms_code (c6_state code) false t "+7 999 123-45-67" wrong []
          1).state) false t "+7 999 123-45-67" code [] 1).result
        = .error codeNotFoundErr := by
  have hg2 : (get_sms_code (c6_state code) false t "+7 999 123-45-67").1
      = some code := c6_get_normalized code t ht
  refine ⟨?_, ?_, ?_⟩
  · exact verify_result_of_get_none _ _ _ _ _ _ _ (c6_get_raw_none code t ht)
  · simp [verify_sms_code, hg2, hcode, Ne.symm hw]
  · rw [verify_state_consumed (c6_state code) false t "+7 999 123-45-67"
      wrong [] 1 code hg2 hcode]
    exact verify_result_of_get_none _ _ _ _ _ _ _
      (get_delete_get_none (c6_state code) false t t "+7 999 123-45-67")

/-- Claim C6 amended-theorem witness: the concrete three-step scenario with
code 1234 and wrong code 0000. -/
theorem verify_normalization_mismatch_witness :
    (("1234" : String) ≠ "" ∧ ("0000" : String) ≠ "1234" ∧ (0 : Nat) < 300)
    ∧ ((verify_sms_code (c6_state "1234") false 0 "9991234567" "0000" []
          1).result = .error codeNotFoundErr
      ∧ (verify_sms_code (c6_state "1234") false 0 "+7 999 123-45-67" "0000"
          [] 1).result = .error codeMismatchErr
      ∧ (verify_sms_code
          ((verify_sms_code (c6_state "1234") false 0 "+7 999 123-45-67"
            "0000" [] 1).state) false 0 "+7 999 123-45-67" "1234" []
          1).result = .error codeNotFoundErr) :=
  ⟨⟨by decide, by decide, by decide⟩,
    verify_normalization_mismatch "1234" "0000" 0 (by decide) (by decide)
      (by decide)⟩

/-- Claim C9 counterexample: the one-time code value does appear outside the
SMS — send_sms_code writes it to the info log and echoes it in the success
response body (the source marks the latter as for development only). -/
theorem code_leak_cex :
    (⟨"info", "Сгенерирован код:  для номера: ",
        ["1234", "+7 999 123-45-67"]⟩ : LogEntry)
      ∈ (send_sms_code ⟨false, [], [], 0⟩ false 0 "+7 999 123-45-67" "1234"
          true).logs
    ∧ (send_sms_code ⟨false, [], [], 0⟩ false 0 "+7 999 123-45-67" "1234"
        true).result
      = .ok ⟨"SMS код отправлен", "+7 999 123-45-67", "1234"⟩ := by
  decide

/-- Claim C9 (amended): the code value appears in the log output and in the
success body of the code-request operation, but every error returned to a
caller by the code-request and code-verification handlers is one of a fixed
set of constant strings that never varies with the code value. -/
theorem code_error_responses_constant :
    (∀ (s : StorageState) (up : Bool) (now : Nat) (phone code : String)
        (smsResult : Bool) (e : ApiError),
      (send_sms_code s up now phone code smsResult).result = .error e →
      e = codeStoreFailedErr ∨ e = smsSendFailedErr)
    ∧ (∀ (s : StorageState) (up : Bool) (now : Nat) (phone code : String)
        (users : List DBUser) (nid : Nat) (e : ApiError),
      (verify_sms_code s up now phone code users nid).result = .error e →
      e = codeNotFoundErr ∨ e = codeMismatchErr ∨ e = accountDisabledErr)
    ∧ (∀ (s : StorageState) (up : Bool) (now : Nat) (phone code : String),
      (⟨"info", "Сгенерирован код:  для номера: ", [code, phone]⟩ : LogEntry)
        ∈ (send_sms_code s up now phone code true).logs
      ∧ (send_sms_code s up now phone code true).result
          = .ok ⟨"SMS код отправлен", phone, code⟩) := by
  refine ⟨?_, ?_, ?_⟩
  · intro s up now phone code smsResult e he
    cases smsResult with
    | true => simp [send_sms_code, set_sms_code_ok] at he
    | false =>
      simp [send_sms_code, set_sms_code_ok] at he
      exact Or.inr he.symm
  · intro s up now phone code users nid e he
    cases hg : (get_sms_code s up now phone).1 with
    | none =>
      simp [verify_sms_code, hg] at he
      exact Or.inl he.symm
    | some stored =>
      by_cases h0 : stored = ""
      · simp [verify_sms_code, hg, h0] at he
        exact Or.inl he.symm
      · by_cases hsc : stored = code
        · subst hsc
          cases hf : users.find? (fun u => u.phone_number == phone) with
          | none => simp [verify_sms_code, hg, h0, hf] at he
          | some u =>
            by_cases ha : u.is_active = false
            · simp [verify_sms_code, hg, h0, hf, ha] at he
              exact Or.inr (Or.inr he.symm)
            · simp [verify_sms_code, hg, h0, hf, ha] at he
        · simp [verify_sms_code, hg, h0, hsc] at he
          exact Or.inr (Or.inl he.symm)
  · intro s up now phone code
    constructor
    · simp [send_sms_code, set_sms_code_ok]
    · simp [send_sms_code, set_sms_code_ok]

/-- Claim C9 amended-theorem witness: a concrete erroring verification run
whose error is one of the fixed constants. -/
theorem code_error_responses_constant_witness :
    ((verify_sms_code ⟨false, [], [], 0⟩ false 0 "p" "1234" [] 1).result
        = .error codeNotFoundErr)
    ∧ (codeNotFoundErr = codeNotFoundErr ∨ codeNotFoundErr = codeMismatchErr
        ∨ codeNotFoundErr = accountDisabledErr) :=
  ⟨by decide,
    code_error_responses_constant.2.1 ⟨false, [], [], 0⟩ false 0 "p" "1234"
      [] 1 codeNotFoundErr (by decide)⟩

end RepairService
